import Mathlib

/-!
Verification of the career-analysis engine (`analysis_engine.py`).

The engine is a set of pure functions over a "Survey Snapshot" (the
`page2_data` dict).  We embed the snapshot as a typed structure in which
every field that the upstream retrieval layer (`processors.py`) may omit
or set to `None` is an `Option`, and every numeric value is an exact
rational (`ℚ`).  Quantities that Python computes with `math.log` /
`numpy.sqrt` are modelled over `ℝ`.

An analysis returns an `Outcome`: `ok` is the success dict, `err` is the
explicit `{"error": ...}` dict, and `exc` models a Python exception
escaping the function (e.g. a `TypeError` from comparing `None` with a
number inside `sorted`/`np.median`).
-/

attribute [local semireducible] Rat.add Rat.mul Rat.inv Rat.sub

/-- Result of one analysis: success payload, explicit error dict, or an
escaped Python exception. -/
inductive Outcome (α : Type) where
  | ok (val : α)
  | err (msg : String)
  | exc (msg : String)
deriving DecidableEq, Repr

/-- True when the outcome models an escaped Python exception. -/
def Outcome.isExc {α : Type} : Outcome α → Bool
  | .exc _ => true
  | _ => false

/-- True when the outcome is a success payload. -/
def Outcome.isOk {α : Type} : Outcome α → Bool
  | .ok _ => true
  | _ => false

/-- Round half to even to an integer, as Python's builtin `round` does. -/
def roundHalfEven {α : Type} [LinearOrderedField α] [FloorRing α] (x : α) : ℤ :=
  let f := ⌊x⌋
  let r := x - f
  if r < 1 / 2 then f
  else if 1 / 2 < r then f + 1
  else if f % 2 = 0 then f else f + 1

/-- Python `round(x, d)`: round half to even at `d` decimal places. -/
def pyRound {α : Type} [LinearOrderedField α] [FloorRing α] (d : ℕ) (x : α) : α :=
  (roundHalfEven (x * 10 ^ d) : α) / 10 ^ d

/-- Insert `a` into `l`, passing over every element `b` with `¬ lt a b`.
Used to model Python's stable `sorted`. -/
def pyInsert {α : Type} (lt : α → α → Bool) (a : α) : List α → List α
  | [] => [a]
  | b :: bs => if lt a b then a :: b :: bs else b :: pyInsert lt a bs

/-- Stable insertion sort; extensionally equal to Python's `sorted` with
the strict comparison `lt` (ties keep input order). -/
def pySortBy {α : Type} (lt : α → α → Bool) (l : List α) : List α :=
  l.foldl (fun acc a => pyInsert lt a acc) []

theorem pyInsert_perm {α : Type} (lt : α → α → Bool) (a : α) (l : List α) :
    (pyInsert lt a l).Perm (a :: l) := by
  induction l with
  | nil => simp [pyInsert]
  | cons b bs ih =>
    simp only [pyInsert]
    split
    · exact List.Perm.refl _
    · exact (List.Perm.cons b ih).trans (List.Perm.swap a b bs)

theorem pySortBy_foldl_perm {α : Type} (lt : α → α → Bool) (l acc : List α) :
    (l.foldl (fun acc a => pyInsert lt a acc) acc).Perm (acc ++ l) := by
  induction l generalizing acc with
  | nil => simp
  | cons x xs ih =>
    simp only [List.foldl_cons]
    refine (ih (pyInsert lt x acc)).trans ?_
    refine (List.Perm.append_right xs (pyInsert_perm lt x acc)).trans ?_
    exact List.perm_middle.symm

theorem pySortBy_perm {α : Type} (lt : α → α → Bool) (l : List α) :
    (pySortBy lt l).Perm l := by
  simpa [pySortBy] using pySortBy_foldl_perm lt l []

theorem mem_pySortBy {α : Type} {lt : α → α → Bool} {l : List α} {a : α} :
    a ∈ pySortBy lt l ↔ a ∈ l :=
  (pySortBy_perm lt l).mem_iff

/-- Arithmetic mean (`numpy.mean` / explicit `sum/len` in the source). -/
def listMean {α : Type} [DivisionRing α] (l : List α) : α :=
  l.sum / l.length

/-- Python `min` over a nonempty list ([] gives 0; all call sites guard). -/
def listMin (l : List ℚ) : ℚ :=
  match l with
  | [] => 0
  | x :: xs => xs.foldl min x

/-- Python `max` over a nonempty list ([] gives 0; all call sites guard). -/
def listMax (l : List ℚ) : ℚ :=
  match l with
  | [] => 0
  | x :: xs => xs.foldl max x

/-- The value for key `k` of the dict built from `l` by successive
insertion (later pairs overwrite earlier ones, as in Python). -/
def dictGet {β : Type} (l : List (String × β)) (k : String) : Option β :=
  l.foldl (fun acc kv => if kv.1 = k then some kv.2 else acc) none

/-- Python `d.get(k, dflt)` over the dict built from `l`. -/
def dictGetD {β : Type} (l : List (String × β)) (k : String) (dflt : β) : β :=
  (dictGet l k).getD dflt

theorem dictGet_foldl_some {β : Type} (l : List (String × β)) (k : String) (v : β) :
    ∀ acc : Option β,
      l.foldl (fun acc kv => if kv.1 = k then some kv.2 else acc) acc = some v →
      (k, v) ∈ l ∨ acc = some v := by
  induction l with
  | nil => intro acc h; exact Or.inr h
  | cons kv l ih =>
    intro acc h
    rcases ih _ h with h' | h'
    · exact Or.inl (List.mem_cons_of_mem _ h')
    · by_cases hk : kv.1 = k
      · simp only [hk, if_pos rfl] at h'
        obtain rfl : kv.2 = v := Option.some.inj h'
        exact Or.inl (by simp [← hk])
      · simp only [if_neg hk] at h'
        exact Or.inr h'

theorem dictGet_mem {β : Type} {l : List (String × β)} {k : String} {v : β}
    (h : dictGet l k = some v) : (k, v) ∈ l := by
  rcases dictGet_foldl_some l k v none h with h' | h'
  · exact h'
  · cases h'

theorem dictGet_foldl_isSome {β : Type} (l : List (String × β)) (k : String) :
    ∀ acc : Option β, acc.isSome →
      (l.foldl (fun acc kv => if kv.1 = k then some kv.2 else acc) acc).isSome := by
  induction l with
  | nil => intro acc h; exact h
  | cons kv l ih =>
    intro acc h
    refine ih _ ?_
    by_cases hk : kv.1 = k <;> simp [hk, h]

theorem dictGet_isSome_of_mem {β : Type} {l : List (String × β)} {k : String}
    (h : k ∈ l.map Prod.fst) : (dictGet l k).isSome := by
  induction l with
  | nil => simp at h
  | cons kv l ih =>
    by_cases hk : kv.1 = k
    · exact dictGet_foldl_isSome l k _ (by simp [dictGet, hk])
    · simp only [List.map_cons, List.mem_cons] at h
      rcases h with h | h
      · exact absurd h.symm hk
      · simpa [dictGet, hk] using ih h

/-- Strict lexicographic comparison of two character lists by code
point: Python's `<` on strings. -/
def charlistLt : List Char → List Char → Bool
  | [], [] => false
  | [], _ :: _ => true
  | _ :: _, [] => false
  | a :: as, b :: bs => if a < b then true else if b < a then false else charlistLt as bs

/-- Python string comparison `a < b` (by Unicode code point). -/
def pyStrLt (a b : String) : Bool := charlistLt a.data b.data

/-- Python `needle in hay` for lists of characters. -/
def charsInfix (needle hay : List Char) : Bool :=
  hay.tails.any (fun t => needle.isPrefixOf t)

/-- Python substring containment `needle in hay`. -/
def strContains (hay needle : String) : Bool :=
  charsInfix needle.data hay.data

/-- Python `sorted(l, key=key, reverse=True)` where the key of an element
may be `None` (an `Option ℚ`): CPython raises `TypeError` as soon as a
`None` key is compared with a number or another `None`, which happens
exactly when the list has at least two elements and some key is `None`. -/
def pySortedDescOpt {α : Type} (key : α → Option ℚ) (l : List α) :
    Except String (List α) :=
  if l.length ≤ 1 then .ok l
  else if l.any (fun a => (key a).isNone) then
    .error "TypeError: comparison involving None"
  else .ok (pySortBy (fun a b => (key b).getD 0 < (key a).getD 0) l)

theorem pySortedDescOpt_perm {α : Type} {key : α → Option ℚ} {l l' : List α}
    (h : pySortedDescOpt key l = .ok l') : l'.Perm l := by
  unfold pySortedDescOpt at h
  split at h
  · exact (Except.ok.inj h) ▸ List.Perm.refl l
  · split at h
    · cases h
    · exact (Except.ok.inj h) ▸ pySortBy_perm _ l

theorem pySortedDescOpt_ok {α : Type} (key : α → Option ℚ) (l : List α)
    (h : ∀ a ∈ l, (key a).isSome) :
    ∃ l', pySortedDescOpt key l = .ok l' ∧ l'.Perm l := by
  unfold pySortedDescOpt
  split
  · exact ⟨l, rfl, List.Perm.refl l⟩
  · have hany : l.any (fun a => (key a).isNone) = false := by
      simp only [List.any_eq_false]
      intro a ha
      simpa [Option.isNone_iff_eq_none, ← Option.ne_none_iff_isSome] using h a ha
    rw [hany]
    exact ⟨_, rfl, pySortBy_perm _ l⟩

/-- Python `min(l, key=key)` wrapped in `None` for the empty list: returns
the first element attaining the minimal key. -/
def pyMinBy {α : Type} (key : α → ℚ) : List α → Option α
  | [] => none
  | x :: xs => some (xs.foldl (fun acc a => if key a < key acc then a else acc) x)

theorem pyMinBy_foldl_spec {α : Type} (key : α → ℚ) (xs : List α) :
    ∀ x : α, (xs.foldl (fun acc a => if key a < key acc then a else acc) x ∈ x :: xs)
      ∧ ∀ y ∈ x :: xs, key (xs.foldl (fun acc a => if key a < key acc then a else acc) x) ≤ key y := by
  induction xs with
  | nil => intro x; constructor <;> simp
  | cons a xs ih =>
    intro x
    simp only [List.foldl_cons]
    by_cases hlt : key a < key x
    · rw [if_pos hlt]
      obtain ⟨hmem, hle⟩ := ih a
      refine ⟨?_, ?_⟩
      · rcases List.mem_cons.mp hmem with h | h
        · rw [h]; exact List.mem_cons_of_mem _ (List.mem_cons_self a xs)
        · exact List.mem_cons_of_mem _ (List.mem_cons_of_mem a h)
      · intro y hy
        rcases List.mem_cons.mp hy with rfl | hy
        · exact le_trans (hle a (List.mem_cons_self a xs)) (le_of_lt hlt)
        · exact hle y hy
    · rw [if_neg hlt]
      obtain ⟨hmem, hle⟩ := ih x
      refine ⟨?_, ?_⟩
      · rcases List.mem_cons.mp hmem with h | h
        · rw [h]; exact List.mem_cons_self x (a :: xs)
        · exact List.mem_cons_of_mem _ (List.mem_cons_of_mem a h)
      · intro y hy
        rcases List.mem_cons.mp hy with rfl | hy
        · exact hle y (List.mem_cons_self y xs)
        · rcases List.mem_cons.mp hy with rfl | hy
          · exact le_trans (hle x (List.mem_cons_self x xs)) (not_lt.mp hlt)
          · exact hle y (List.mem_cons_of_mem x hy)

theorem pyMinBy_spec {α : Type} {key : α → ℚ} {l : List α} {m : α}
    (h : pyMinBy key l = some m) : m ∈ l ∧ ∀ y ∈ l, key m ≤ key y := by
  cases l with
  | nil => cases h
  | cons x xs =>
    obtain rfl : xs.foldl (fun acc a => if key a < key acc then a else acc) x = m :=
      Option.some.inj h
    exact pyMinBy_foldl_spec key xs x

theorem pyMinBy_eq_none {α : Type} {key : α → ℚ} {l : List α} :
    pyMinBy key l = none ↔ l = [] := by
  cases l <;> simp [pyMinBy]

/-- Source `_percentile_score(value, all_values)` (analysis_engine.py
lines 20-29): 0-100 percentile score of `value` within `all_values`,
with 50.0 for a missing value, empty or singleton population. -/
def percentileScore (value : Option ℚ) (all_values : List ℚ) : ℚ :=
  if all_values.isEmpty ∨ value.isNone then 50
  else
    let sorted_vals := pySortBy (fun a b => a < b) all_values
    let n := sorted_vals.length
    if n = 1 then 50
    else
      let count_below := (sorted_vals.filter (fun v => v < value.getD 0)).length
      min 100 ((count_below : ℚ) / ((n : ℚ) - 1) * 100)

/-- Source `_grade(score)` (analysis_engine.py lines 32-41). -/
def gradeScore (score : ℚ) : String :=
  if 80 ≤ score then "A"
  else if 65 ≤ score then "B"
  else if 50 ≤ score then "C"
  else if 35 ≤ score then "D"
  else "F"

/-- Sanity: the source table uses keys such as "Bachelor's degree". -/
def eduOrderProbe : List String := ["High school diploma", "Bachelor's degree"]

/-! ### The Survey Snapshot (`page2_data`)

A Python dict section that is absent behaves exactly like the empty dict
(`page2_data.get(sec, {})`), so each section is embedded as always
present with `Option` summary fields and possibly-empty lists.  List
entries carry `Option ℚ` exactly where the engine guards them with
`.get(...) is not None` (the upstream layer can in principle hand such
entries in); unemployment trend points and by-education incomes are
plain `ℚ` because `processors.py` filters `None` out when building them. -/

/-- One point of an unemployment trend series (`{date, value}`). -/
structure TrendPoint where
  date : String
  value : ℚ
deriving DecidableEq, Repr

/-- One entry of `labour_force.comparison` (`{field, employment_rate}`). -/
structure CompEntry where
  field : String
  employment_rate : Option ℚ
deriving DecidableEq, Repr

/-- One entry of `income.ranking` (`{field, median_income}`). -/
structure RankEntry where
  field : String
  median_income : Option ℚ
deriving DecidableEq, Repr

/-- One entry of `income.by_education` (`{education, median_income}`). -/
structure EduIncomeEntry where
  education : String
  median_income : ℚ
deriving DecidableEq, Repr

/-- One entry of `job_vacancies.trends` (`{date, vacancies, ...}`). -/
structure VacancyPoint where
  date : String
  vacancies : Option ℚ
deriving DecidableEq, Repr

/-- One entry of `graduate_outcomes.comparison` (`{field, income_2yr}`). -/
structure GradCompEntry where
  field : String
  income_2yr : Option ℚ
deriving DecidableEq, Repr

/-- One entry of `subfield_comparison.subfields`. -/
structure SubfieldEntry where
  name : String
  employment_rate : Option ℚ
  median_income : Option ℚ
  emp_exact : Bool
deriving DecidableEq, Repr

/-- The `labour_force` section. -/
structure LabourForceSec where
  employment_rate : Option ℚ
  comparison : List CompEntry
  user_field : String
deriving DecidableEq, Repr

/-- The `income` section. -/
structure IncomeSec where
  median_income : Option ℚ
  average_income : Option ℚ
  ranking : List RankEntry
  by_education : List EduIncomeEntry
deriving DecidableEq, Repr

/-- The `unemployment` section; `trends` is a dict in insertion order. -/
structure UnemploymentSec where
  user_education : String
  trends : List (String × List TrendPoint)
deriving DecidableEq, Repr

/-- The `graduate_outcomes` section. -/
structure GraduateSec where
  income_2yr : Option ℚ
  income_5yr : Option ℚ
  growth_pct : Option ℚ
  comparison : List GradCompEntry
deriving DecidableEq, Repr

/-- The `subfield_comparison` section. -/
structure SubfieldSec where
  broad_field : String
  user_subfield : Option String
  subfields : List SubfieldEntry
deriving DecidableEq, Repr

/-- The engine's sole input, `page2_data`. -/
structure Page2Data where
  labour_force : LabourForceSec
  income : IncomeSec
  unemployment : UnemploymentSec
  job_vacancies : List VacancyPoint
  graduate_outcomes : GraduateSec
  subfield_comparison : SubfieldSec
deriving DecidableEq, Repr

/-- A snapshot in which every section is absent/empty. -/
def emptySnapshot : Page2Data :=
  ⟨⟨none, [], ""⟩, ⟨none, none, [], []⟩, ⟨"", []⟩, [], ⟨none, none, none, []⟩,
    ⟨"", none, []⟩⟩

/-! ### Static configuration (`config.py`) -/

/-- The `unemp` series id of each entry of `config.EDUCATION_OPTIONS`. -/
def EDUCATION_OPTIONS_unemp : List (String × ℕ) :=
  [("Bachelor's degree", 8),
   ("Master's degree", 9),
   ("Earned doctorate", 9),
   ("College, CEGEP or other non-university certificate or diploma", 6),
   ("Apprenticeship or trades certificate or diploma", 6),
   ("High school diploma", 4),
   ("Degree in medicine, dentistry, veterinary medicine or optometry", 9),
   ("University degree (any)", 7)]

/-- `config.UNEMP_EDU`: series name to id, in source order. -/
def UNEMP_EDU : List (String × ℕ) :=
  [("Total, all education levels", 1),
   ("0 to 8 years", 2),
   ("Some high school", 3),
   ("High school graduate", 4),
   ("Some postsecondary", 5),
   ("Postsecondary certificate or diploma", 6),
   ("University degree", 7),
   ("Bachelor's degree", 8),
   ("Above bachelor's degree", 9)]

/-- Source `_find_user_unemployment_series(trends, user_education)`
(analysis_engine.py lines 141-152): resolve the user's series via the
config tables, falling back to the first series, then to `[]`. -/
def findUserUnemploymentSeries (trends : List (String × List TrendPoint))
    (user_education : String) : List TrendPoint :=
  let user_edu_id : Option ℕ := dictGet EDUCATION_OPTIONS_unemp user_education
  match UNEMP_EDU.find? (fun p => user_edu_id = some p.2 ∧ (dictGet trends p.1).isSome) with
  | some p => (dictGet trends p.1).getD []
  | none =>
    match trends with
    | [] => []
    | kv :: _ => kv.2

/-! ### Trend analysis primitives (analysis_engine.py lines 158-195) -/

/-- Source `_moving_average(values, window)` (lines 158-166): trailing
moving average with a growing window at the start; series shorter than
the window are returned unchanged. -/
def movingAverage (values : List ℚ) (window : ℕ) : List ℚ :=
  if values.length < window then values
  else
    (List.range values.length).map (fun i =>
      let start := i + 1 - window
      listMean ((values.drop start).take (i + 1 - start)))

/-- Degree-1 `np.polyfit` of `ys` against x = 0,1,...: the ordinary
least-squares `(slope, intercept)` in closed form. -/
def polyfit1 (ys : List ℚ) : ℚ × ℚ :=
  let n : ℚ := ys.length
  let xs : List ℚ := (List.range ys.length).map (fun i : ℕ => (i : ℚ))
  let sx := xs.sum
  let sxx := (xs.map (fun x => x * x)).sum
  let sy := ys.sum
  let sxy := ((xs.zip ys).map (fun p => p.1 * p.2)).sum
  let slope := (n * sxy - sx * sy) / (n * sxx - sx * sx)
  (slope, (sy - slope * sx) / n)

/-- Residuals of `ys` against its own least-squares line (line 194). -/
def fitResiduals (ys : List ℚ) : List ℚ :=
  let c := polyfit1 ys
  ((List.range ys.length).zip ys).map (fun p : ℕ × ℚ => p.2 - (c.1 * (p.1 : ℚ) + c.2))

/-- Square of `np.std(residuals)` (line 195): the population variance of
the residuals.  `std_residual = 0` iff this is `0`, and `> 0` iff this
is `> 0`; we keep the variance to stay inside `ℚ`. -/
def residualVar (ys : List ℚ) : ℚ :=
  let rs := fitResiduals ys
  let mu := listMean rs
  listMean (rs.map (fun r => (r - mu) * (r - mu)))

/-! ### B. Trend forecasts (analysis_engine.py lines 169-290)

The embedded result keeps the fields the specification's claims are
about.  The `dates`/`forecast_dates` labels and the `upper_band` /
`lower_band` / `std_residual` outputs are omitted from the record: the
bands need `sqrt` (see `residualVar` for the exact square) and no claim
mentions them. -/

/-- Forecast output (shared by the unemployment and vacancy variants).
`slope` is the rounded value placed in the result dict; the
interpretation is chosen from the unrounded slope as in the source. -/
structure ForecastResult where
  values : List ℚ
  smoothed : List ℚ
  forecast_values : List ℚ
  slope : ℚ
  interpretation : String
deriving DecidableEq, Repr

/-- Source `compute_unemployment_forecast(page2_data)` (lines 169-230). -/
def compute_unemployment_forecast (p : Page2Data) : Outcome ForecastResult :=
  let series := findUserUnemploymentSeries p.unemployment.trends
    p.unemployment.user_education
  if series.length < 3 then .err "Insufficient unemployment data for forecasting"
  else
    let values := series.map (·.value)
    let smoothed := movingAverage values 3
    let c := polyfit1 smoothed
    let n := smoothed.length
    let forecast_values := (List.range 3).map
      (fun i : ℕ => max 0 (pyRound 2 (c.1 * ((n : ℚ) + (i : ℚ)) + c.2)))
    let interpretation :=
      if c.1 < -(1 / 10) then "Improving — unemployment trending downward"
      else if (1 / 10) < c.1 then "Worsening — unemployment trending upward"
      else "Stable — unemployment relatively flat"
    .ok ⟨values, smoothed, forecast_values, pyRound 4 c.1, interpretation⟩

/-- Source `compute_vacancy_forecast(page2_data)` (lines 233-290). -/
def compute_vacancy_forecast (p : Page2Data) : Outcome ForecastResult :=
  let vac_trends := p.job_vacancies
  if vac_trends.length < 4 then .err "Insufficient vacancy data for forecasting"
  else
    let values := vac_trends.filterMap (·.vacancies)
    if values.length < 4 then .err "Insufficient vacancy data for forecasting"
    else
      let smoothed := movingAverage values 3
      let c := polyfit1 smoothed
      let n := smoothed.length
      let forecast_values := (List.range 3).map
        (fun i : ℕ => max 0 (pyRound 0 (c.1 * ((n : ℚ) + (i : ℚ)) + c.2)))
      let interpretation :=
        if 100 < c.1 then "Growing — job vacancies increasing"
        else if c.1 < -100 then "Declining — job vacancies decreasing"
        else "Stable — job vacancies relatively flat"
      .ok ⟨values, smoothed, forecast_values, pyRound 2 c.1, interpretation⟩

/-! ### A. Composite score (analysis_engine.py lines 44-138) -/

/-- The `weights` dict of `compute_composite_score` (lines 124-130). -/
def compositeWeights : List (String × ℚ) :=
  [("Employment", 25 / 100),
   ("Income", 25 / 100),
   ("Trend", 20 / 100),
   ("Demand", 15 / 100),
   ("Growth", 15 / 100)]

/-- Employment sub-score (lines 56-64). -/
def compositeEmployment (p : Page2Data) : ℚ :=
  let emp_rate := p.labour_force.employment_rate
  let all_emp_rates := p.labour_force.comparison.filterMap (·.employment_rate)
  match emp_rate with
  | some v =>
    if all_emp_rates.isEmpty then 50
    else pyRound 1 (percentileScore (some v) all_emp_rates)
  | none => 50

/-- Income sub-score (lines 66-74). -/
def compositeIncome (p : Page2Data) : ℚ :=
  let median_inc := p.income.median_income
  let all_incomes := p.income.ranking.filterMap (·.median_income)
  match median_inc with
  | some v =>
    if all_incomes.isEmpty then 50
    else pyRound 1 (percentileScore (some v) all_incomes)
  | none => 50

/-- Trend sub-score from the unemployment slope (lines 76-90). -/
def compositeTrend (p : Page2Data) : ℚ :=
  let series := findUserUnemploymentSeries p.unemployment.trends
    p.unemployment.user_education
  if 3 ≤ series.length then
    let slope := (polyfit1 (series.map (·.value))).1
    pyRound 1 (max 0 (min 100 (50 - slope * 25)))
  else 50

/-- Demand sub-score from the vacancy trend (lines 92-111). -/
def compositeDemand (p : Page2Data) : ℚ :=
  let vac_trends := p.job_vacancies
  if 4 ≤ vac_trends.length then
    let vac_values := vac_trends.filterMap (·.vacancies)
    if 4 ≤ vac_values.length then
      let mid := vac_values.length / 2
      let older_avg := listMean (vac_values.take mid)
      let recent_avg := listMean (vac_values.drop mid)
      let demand_score :=
        if 0 < older_avg then
          max 0 (min 100 (50 + (recent_avg - older_avg) / older_avg * 100))
        else 50
      pyRound 1 demand_score
    else 50
  else 50

/-- Growth sub-score (lines 113-121). -/
def compositeGrowth (p : Page2Data) : ℚ :=
  match p.graduate_outcomes.growth_pct with
  | some g => pyRound 1 (max 0 (min 100 (g * 2)))
  | none => 50

/-- The `components` dict, keyed as in the source. -/
def compositeComponent (p : Page2Data) (k : String) : ℚ :=
  if k = "Employment" then compositeEmployment p
  else if k = "Income" then compositeIncome p
  else if k = "Trend" then compositeTrend p
  else if k = "Demand" then compositeDemand p
  else if k = "Growth" then compositeGrowth p
  else 0

/-- The weighted total (lines 131-132). -/
def compositeTotal (p : Page2Data) : ℚ :=
  pyRound 1 ((compositeWeights.map (fun kw => compositeComponent p kw.1 * kw.2)).sum)

/-- Output record of `compute_composite_score`. -/
structure CompositeResult where
  total : ℚ
  employment : ℚ
  income : ℚ
  trend : ℚ
  demand : ℚ
  growth : ℚ
  grade : String
deriving DecidableEq, Repr

/-- The dict returned by `compute_composite_score` (lines 134-138). -/
def compositeResult (p : Page2Data) : CompositeResult :=
  ⟨compositeTotal p, compositeEmployment p, compositeIncome p, compositeTrend p,
    compositeDemand p, compositeGrowth p, gradeScore (compositeTotal p)⟩

/-- Source `compute_composite_score(page2_data)` (lines 44-138): the
function has no error return and no unguarded access, so it always
produces the success dict. -/
def compute_composite_score (p : Page2Data) : Outcome CompositeResult :=
  .ok (compositeResult p)

/-! ### C. Income projection (analysis_engine.py lines 296-351)

`math.log` forces this single analysis into `ℝ`.  The record keeps the
unrounded fit coefficients `a`, `b` (the source evaluates the curve and
the year-10/15 projections from these exact values and only rounds for
display) together with the anchor incomes and the field average; the
rounded `curve_incomes` / `projected_points` / `formula` display lists
are all pointwise images of `fun y => a * log y + b` and are omitted. -/

/-- Output record of `compute_income_projection`. -/
structure ProjectionResult where
  a : ℝ
  b : ℝ
  income_2yr : ℚ
  income_5yr : ℚ
  field_avg_2yr : Option ℚ

/-- Field-average benchmark (lines 331-336). -/
def projectionFieldAvg (p : Page2Data) : Option ℚ :=
  let comparison := p.graduate_outcomes.comparison
  if comparison.isEmpty then none
  else
    let incomes := comparison.filterMap (·.income_2yr)
    if incomes.isEmpty then none
    else some (pyRound 0 (listMean incomes))

/-- Source `compute_income_projection(page2_data)` (lines 296-351). -/
noncomputable def compute_income_projection (p : Page2Data) :
    Outcome ProjectionResult :=
  match p.graduate_outcomes.income_2yr, p.graduate_outcomes.income_5yr with
  | none, _ => .err "Insufficient graduate income data for projection"
  | some _, none => .err "Insufficient graduate income data for projection"
  | some income_2yr, some income_5yr =>
    if income_2yr ≤ 0 then .err "Invalid income data (2yr income <= 0)"
    else
      let a : ℝ := ((income_5yr : ℝ) - (income_2yr : ℝ)) / (Real.log 5 - Real.log 2)
      let b : ℝ := (income_2yr : ℝ) - a * Real.log 2
      .ok ⟨a, b, income_2yr, income_5yr, projectionFieldAvg p⟩

/-! ### D. Risk assessment (analysis_engine.py lines 357-452) -/

/-- Output record of `compute_risk_assessment`.  `volatility_cv` is the
rounded coefficient of variation (a real number because of `np.std`). -/
structure RiskResult where
  volatility_cv : Option ℝ
  volatility_grade : String
  income_symmetry : Option ℚ
  symmetry_grade : String
  overall_grade : String
  interpretation : String

/-- Volatility: rounded CV of the unemployment series (lines 374-391). -/
noncomputable def riskVolatility (p : Page2Data) : Option ℝ :=
  let series := findUserUnemploymentSeries p.unemployment.trends
    p.unemployment.user_education
  if 3 ≤ series.length then
    let values := series.map (·.value)
    let mean_val : ℚ := listMean values
    if 0 < mean_val then
      let std : ℝ := Real.sqrt (listMean (values.map
        (fun v : ℚ => ((v : ℝ) - (mean_val : ℝ)) ^ 2)))
      some (pyRound 1 (std / (mean_val : ℝ) * 100))
    else none
  else none

open scoped Classical in
/-- CV grade thresholds (lines 381-391), applied to the rounded CV. -/
noncomputable def volatilityGrade (cv : Option ℝ) : String :=
  match cv with
  | none => "N/A"
  | some c =>
    if c < 10 then "A"
    else if c < 20 then "B"
    else if c < 30 then "C"
    else if c < 40 then "D"
    else "F"

/-- Income symmetry (lines 393-401): Python truthiness on both values,
so a present-but-zero `median_income` falls through to `None`. -/
def riskSymmetry (p : Page2Data) : Option ℚ :=
  match p.income.median_income, p.income.average_income with
  | some m, some a => if m ≠ 0 ∧ a ≠ 0 ∧ 0 < a then some (pyRound 3 (m / a)) else none
  | _, _ => none

/-- Symmetry grade thresholds (lines 402-412). -/
def symmetryGrade (s : Option ℚ) : String :=
  match s with
  | none => "N/A"
  | some v =>
    if 95 / 100 ≤ v then "A"
    else if 85 / 100 ≤ v then "B"
    else if 75 / 100 ≤ v then "C"
    else if 65 / 100 ≤ v then "D"
    else "F"

/-- The `grade_map` dict (line 415). -/
def gradePoints (g : String) : ℚ :=
  if g = "A" then 4 else if g = "B" then 3 else if g = "C" then 2
  else if g = "D" then 1 else if g = "F" then 0 else 2

/-- Overall grade from the two sub-grades (lines 414-431). -/
def overallGrade (volatility_grade symmetry_grade : String) : String :=
  let valid_grades := [volatility_grade, symmetry_grade].filter (fun g => g ≠ "N/A")
  if valid_grades.isEmpty then "N/A"
  else
    let avg : ℚ := (valid_grades.map gradePoints).sum / valid_grades.length
    if 35 / 10 ≤ avg then "A"
    else if 25 / 10 ≤ avg then "B"
    else if 15 / 10 ≤ avg then "C"
    else if 5 / 10 ≤ avg then "D"
    else "F"

open scoped Classical in
/-- Risk-factor interpretation (lines 433-443). -/
noncomputable def riskInterpretation (volatility_cv : Option ℝ)
    (income_symmetry : Option ℚ) : String :=
  let risk_factors :=
    (match volatility_cv with
     | some cv => if 25 < cv then ["high unemployment volatility"] else []
     | none => []) ++
    (match income_symmetry with
     | some s =>
       if s < 80 / 100 then ["significant income inequality (median << average)"]
       else []
     | none => [])
  if risk_factors.isEmpty then
    "Low risk profile — stable employment and balanced income distribution"
  else "Risk factors: " ++ String.intercalate ", " risk_factors

/-- The dict returned by `compute_risk_assessment` (lines 445-452). -/
noncomputable def riskResult (p : Page2Data) : RiskResult :=
  let volatility_cv := riskVolatility p
  let income_symmetry := riskSymmetry p
  let vg := volatilityGrade volatility_cv
  let sg := symmetryGrade income_symmetry
  ⟨volatility_cv, vg, income_symmetry, sg, overallGrade vg sg,
    riskInterpretation volatility_cv income_symmetry⟩

/-- Source `compute_risk_assessment(page2_data)` (lines 357-452): no
error return and every access guarded, so always the success dict. -/
noncomputable def compute_risk_assessment (p : Page2Data) : Outcome RiskResult :=
  .ok (riskResult p)

/-! ### E. Education ROI (analysis_engine.py lines 458-545) -/

/-- `EDUCATION_COSTS` (lines 458-465): estimated annual cost per level. -/
def EDUCATION_COSTS : List (String × ℚ) :=
  [("High school diploma", 0),
   ("Apprenticeship/trades", 8000),
   ("College/CEGEP", 12000),
   ("Bachelor's degree", 22000),
   ("Master's degree", 25000),
   ("Earned doctorate", 28000)]

/-- `EDUCATION_DURATIONS` (lines 467-474): duration in years per level. -/
def EDUCATION_DURATIONS : List (String × ℚ) :=
  [("High school diploma", 0),
   ("Apprenticeship/trades", 2),
   ("College/CEGEP", 2),
   ("Bachelor's degree", 4),
   ("Master's degree", 2),
   ("Earned doctorate", 4)]

/-- The canonical `edu_order` list (lines 491-498). -/
def eduOrder : List String :=
  ["High school diploma",
   "Apprenticeship/trades",
   "College/CEGEP",
   "Bachelor's degree",
   "Master's degree",
   "Earned doctorate"]

/-- One entry of the ROI `levels` list (lines 526-536). -/
structure RoiLevel where
  from_level : String
  to_level : String
  from_income : ℚ
  to_income : ℚ
  income_premium : ℚ
  premium_pct : ℚ
  total_cost : ℚ
  duration_years : ℚ
  break_even_years : Option ℚ
deriving DecidableEq, Repr

/-- Output record of `compute_education_roi`. -/
structure RoiResult where
  levels : List RoiLevel
  best_roi : Option RoiLevel
deriving DecidableEq, Repr

/-- The `positive` filter of line 539: a non-`None`, strictly positive
break-even. -/
def roiPositive (l : RoiLevel) : Bool :=
  match l.break_even_years with
  | some b => 0 < b
  | none => false

/-- The level record built for one adjacent pair (lines 507-536). -/
def roiLevelOf (pr : (String × ℚ) × (String × ℚ)) : RoiLevel :=
  let from_level := pr.1.1
  let from_income := pr.1.2
  let to_level := pr.2.1
  let to_income := pr.2.2
  let income_premium := to_income - from_income
  let premium_pct :=
    pyRound 1 (if 0 < from_income then income_premium / from_income * 100 else 0)
  let annual_cost := dictGetD EDUCATION_COSTS to_level 20000
  let duration := dictGetD EDUCATION_DURATIONS to_level 2
  let total_cost := annual_cost * duration
  let break_even :=
    if 0 < income_premium then some (pyRound 1 (total_cost / income_premium))
    else none
  ⟨from_level, to_level, from_income, to_income, pyRound 0 income_premium,
    premium_pct, total_cost, duration, break_even⟩

/-- Source `compute_education_roi(page2_data)` (lines 477-545). -/
def compute_education_roi (p : Page2Data) : Outcome RoiResult :=
  let by_education := p.income.by_education
  if by_education.length < 2 then
    .err "Insufficient education-level income data for ROI"
  else
    let income_map := fun e =>
      dictGet (by_education.map (fun x => (x.education, x.median_income))) e
    let available := eduOrder.filterMap (fun e => (income_map e).map (fun v => (e, v)))
    let levels := (available.zip available.tail).map roiLevelOf
    let positive := levels.filter roiPositive
    .ok ⟨levels, pyMinBy (fun l => (l.break_even_years).getD 0) positive⟩

/-! ### F. Field competitiveness (analysis_engine.py lines 551-646) -/

/-- One entry of `field_rankings` (lines 588-595). -/
structure FieldRanking where
  field : String
  employment_rate : Option ℚ
  median_income : Option ℚ
  emp_rank : ℕ
  inc_rank : ℕ
  combined_rank : ℕ
deriving DecidableEq, Repr

/-- Output record of `compute_field_competitiveness`. -/
structure CompetitivenessResult where
  employment_rank : Option ℕ
  income_rank : Option ℕ
  total_fields : ℕ
  emp_quartile : String
  inc_quartile : String
  strengths : List String
  weaknesses : List String
  field_rankings : List FieldRanking
deriving DecidableEq, Repr

/-- The union of field names, deduplicated and sorted as Python's
`sorted(set(emp_map) | set(inc_map))`. -/
def allFieldsOf (p : Page2Data) : List String :=
  pySortBy pyStrLt
    ((p.labour_force.comparison.map (·.field) ++ p.income.ranking.map (·.field)).dedup)

/-- The Python dict comprehension `{f: i+1 for i, f in enumerate(l)}`,
with ranks starting at `base + 1`. -/
def rankPairs (l : List String) (base : ℕ) : List (String × ℕ) :=
  match l with
  | [] => []
  | f :: fs => (f, base + 1) :: rankPairs fs (base + 1)

/-- Python truthiness check for an optional rank (`if user_emp_rank and ...`). -/
def truthyRank (r : Option ℕ) : Bool :=
  match r with
  | some n => n ≠ 0
  | none => false

/-- Quartile label (lines 611-620). -/
def quartileLabel (total_fields q1_threshold q4_threshold : ℕ) (rank : Option ℕ) :
    String :=
  match rank with
  | none => "N/A"
  | some r =>
    if r ≤ q1_threshold then "Top quartile"
    else if r ≤ total_fields / 2 then "Second quartile"
    else if r ≤ q4_threshold then "Third quartile"
    else "Bottom quartile"

/-- Source `compute_field_competitiveness(page2_data)` (lines 551-646).
The two `sorted(..., key=..., reverse=True)` calls can raise a Python
`TypeError` when an entry's rate/income is `None`; that path is the
`exc` outcome. -/
def compute_field_competitiveness (p : Page2Data) : Outcome CompetitivenessResult :=
  let comparison := p.labour_force.comparison
  let ranking := p.income.ranking
  let user_field := p.labour_force.user_field
  if comparison.isEmpty ∧ ranking.isEmpty then
    .err "Insufficient data for competitiveness analysis"
  else
    let emp_map := fun f => dictGet (comparison.map (fun c => (c.field, c.employment_rate))) f
    let inc_map := fun f => dictGet (ranking.map (fun r => (r.field, r.median_income))) f
    let all_fields := allFieldsOf p
    let total_fields := all_fields.length
    match pySortedDescOpt (fun f => (emp_map f).getD (some 0)) all_fields with
    | .error m => .exc m
    | .ok emp_sorted =>
      match pySortedDescOpt (fun f => (inc_map f).getD (some 0)) all_fields with
      | .error m => .exc m
      | .ok inc_sorted =>
        let emp_rank := fun f => dictGetD (rankPairs emp_sorted 0) f total_fields
        let inc_rank := fun f => dictGetD (rankPairs inc_sorted 0) f total_fields
        let field_rankings := all_fields.map (fun f =>
          FieldRanking.mk f ((emp_map f).getD none) ((inc_map f).getD none)
            (emp_rank f) (inc_rank f) (emp_rank f + inc_rank f))
        let sorted_rankings :=
          pySortBy (fun a b => a.combined_rank < b.combined_rank) field_rankings
        let user_match := all_fields.find? (fun f =>
          strContains f user_field || strContains user_field f)
        let user_emp_rank := user_match.map emp_rank
        let user_inc_rank := user_match.map inc_rank
        let q1_threshold := max 1 (total_fields / 4)
        let q4_threshold := total_fields - q1_threshold
        let strengths :=
          (if truthyRank user_emp_rank ∧ (user_emp_rank.getD 0) ≤ q1_threshold then
            ["High employment rate"] else []) ++
          (if truthyRank user_inc_rank ∧ (user_inc_rank.getD 0) ≤ q1_threshold then
            ["High income"] else [])
        let weaknesses :=
          (if truthyRank user_emp_rank ∧ q4_threshold < (user_emp_rank.getD 0) then
            ["Low employment rate"] else []) ++
          (if truthyRank user_inc_rank ∧ q4_threshold < (user_inc_rank.getD 0) then
            ["Low income relative to other fields"] else [])
        .ok ⟨user_emp_rank, user_inc_rank, total_fields,
          quartileLabel total_fields q1_threshold q4_threshold user_emp_rank,
          quartileLabel total_fields q1_threshold q4_threshold user_inc_rank,
          strengths, weaknesses, sorted_rankings⟩

/-! ### G/H. Quadrant analyses (analysis_engine.py lines 653-820) -/

/-- `_SHORT_NAMES` (lines 653-665). -/
def SHORT_NAMES : List (String × String) :=
  [("Education", "Education"),
   ("Visual and performing arts, and communications technologies", "Arts & Media"),
   ("Humanities", "Humanities"),
   ("Social and behavioural sciences and law", "Social Sci & Law"),
   ("Business, management and public administration", "Business"),
   ("Physical and life sciences and technologies", "Life Sciences"),
   ("Mathematics, computer and information sciences", "Math & CS"),
   ("Architecture, engineering, and related trades", "Engineering"),
   ("Agriculture, natural resources and conservation", "Agriculture"),
   ("Health and related fields", "Health"),
   ("Personal, protective and transportation services", "Services")]

/-- `np.median` of a (nonempty) rational list. -/
def pyMedian (l : List ℚ) : ℚ :=
  let s := pySortBy (fun a b => decide (a < b)) l
  let n := s.length
  if n % 2 = 1 then s.getD (n / 2) 0
  else (s.getD (n / 2 - 1) 0 + s.getD (n / 2) 0) / 2

/-- One scatter point of a quadrant analysis (lines 696-705, 771-784).
Only the subfield variant carries `emp_exact`; the career variant fixes
it to `true`. -/
structure QuadField where
  field : String
  short_name : String
  employment_rate : Option ℚ
  median_income : Option ℚ
  emp_exact : Bool
  is_user : Bool
deriving DecidableEq, Repr

/-- Output record shared by both quadrant analyses; the subfield variant
also fills `broad_field` and `has_estimated_emp`. -/
structure QuadrantResult where
  fields : List QuadField
  emp_midpoint : ℚ
  inc_midpoint : ℚ
  emp_min : ℚ
  emp_max : ℚ
  inc_min : ℚ
  inc_max : ℚ
  user_quadrant : String
  broad_field : String
  has_estimated_emp : Bool
deriving DecidableEq, Repr

/-- Quadrant classification of the first user entry (lines 713-728). -/
def userQuadrant (fields : List QuadField) (emp_midpoint inc_midpoint : ℚ) :
    String :=
  match fields.filter (·.is_user) with
  | [] => "N/A"
  | u :: _ =>
    let high_emp := emp_midpoint ≤ (u.employment_rate).getD 0
    let high_inc := inc_midpoint ≤ (u.median_income).getD 0
    if high_emp ∧ high_inc then "High Employability + High Income"
    else if ¬high_emp ∧ high_inc then "Competitive/Niche + High Income"
    else if high_emp ∧ ¬high_inc then "Accessible + Lower Income"
    else "Challenging + Lower Income"

/-- Source `compute_career_quadrant(page2_data)` (lines 668-739).  The
`np.median`/`min`/`max` calls raise a `TypeError` when an entry value is
`None`; that path is the `exc` outcome. -/
def compute_career_quadrant (p : Page2Data) : Outcome QuadrantResult :=
  let comparison := p.labour_force.comparison
  let ranking := p.income.ranking
  let user_field := p.labour_force.user_field
  if comparison.isEmpty ∨ ranking.isEmpty then
    .err "Insufficient data for career quadrant analysis"
  else
    let emp_map := fun f => dictGet (comparison.map (fun c => (c.field, c.employment_rate))) f
    let inc_map := fun f => dictGet (ranking.map (fun r => (r.field, r.median_income))) f
    let common_fields := pySortBy pyStrLt
      (((comparison.map (·.field)).filter (fun f => (inc_map f).isSome)).dedup)
    if common_fields.length < 3 then
      .err "Too few fields with both employment and income data"
    else
      let fields := common_fields.map (fun f =>
        QuadField.mk f (dictGetD SHORT_NAMES f (f.take 20))
          ((emp_map f).getD none) ((inc_map f).getD none) true
          (strContains f user_field || strContains user_field f))
      if (fields.map (·.employment_rate)).any (·.isNone) ∨
          (fields.map (·.median_income)).any (·.isNone) then
        .exc "TypeError: unsupported operand involving None"
      else
        let all_emp := fields.map (fun f => (f.employment_rate).getD 0)
        let all_inc := fields.map (fun f => (f.median_income).getD 0)
        let emp_midpoint := pyMedian all_emp
        let inc_midpoint := pyMedian all_inc
        .ok ⟨fields, pyRound 1 emp_midpoint, pyRound 0 inc_midpoint,
          pyRound 1 (listMin all_emp - 2), pyRound 1 (listMax all_emp + 2),
          pyRound 0 (listMin all_inc * (9 / 10)),
          pyRound 0 (listMax all_inc * (11 / 10)),
          userQuadrant fields emp_midpoint inc_midpoint, "", false⟩

/-- Short display name of a subfield (lines 764-769): strip a leading
numeric CIP prefix before the first space, else truncate to 25 chars. -/
def subfieldShortName (name : String) : String :=
  let pre := name.data.takeWhile (fun c => c ≠ ' ')
  let rest := name.data.dropWhile (fun c => c ≠ ' ')
  match rest with
  | [] => name.take 25
  | _ :: tail =>
    let digits := pre.filter (fun c => c ≠ '.')
    if ¬digits.isEmpty ∧ digits.all Char.isDigit then String.mk tail
    else name.take 25

/-- Python `is_user` test for a subfield (lines 773-776). -/
def subfieldIsUser (user_subfield : Option String) (name : String) : Bool :=
  match user_subfield with
  | none => false
  | some u => u = name || strContains u name || strContains name u

/-- Source `compute_subfield_quadrant(page2_data)` (lines 745-820). -/
def compute_subfield_quadrant (p : Page2Data) : Outcome QuadrantResult :=
  let sf_data := p.subfield_comparison
  let subfields := sf_data.subfields
  if subfields.length < 2 then
    .err ("Insufficient subfield data for " ++ sf_data.broad_field ++
      " (need at least 2 subfields)")
  else
    let fields := subfields.map (fun sf =>
      QuadField.mk sf.name (subfieldShortName sf.name) sf.employment_rate
        sf.median_income sf.emp_exact (subfieldIsUser sf_data.user_subfield sf.name))
    if (fields.map (·.employment_rate)).any (·.isNone) ∨
        (fields.map (·.median_income)).any (·.isNone) then
      .exc "TypeError: unsupported operand involving None"
    else
      let all_emp := fields.map (fun f => (f.employment_rate).getD 0)
      let all_inc := fields.map (fun f => (f.median_income).getD 0)
      let emp_midpoint := pyMedian all_emp
      let inc_midpoint := pyMedian all_inc
      .ok ⟨fields, pyRound 1 emp_midpoint, pyRound 0 inc_midpoint,
        pyRound 1 (listMin all_emp - 2), pyRound 1 (listMax all_emp + 2),
        pyRound 0 (listMin all_inc * (9 / 10)),
        pyRound 0 (listMax all_inc * (11 / 10)),
        userQuadrant fields emp_midpoint inc_midpoint, sf_data.broad_field,
        fields.any (fun f => !f.emp_exact)⟩

/-- Orchestrator input-wellformedness: every per-entry metric value that
the engine feeds to `sorted`/`np.median`/`min`/`max` is an actual number
(the retrieval layer in `processors.py` only ever emits such entries). -/
def WellFormed (p : Page2Data) : Prop :=
  (∀ c ∈ p.labour_force.comparison, c.employment_rate.isSome) ∧
  (∀ r ∈ p.income.ranking, r.median_income.isSome) ∧
  (∀ s ∈ p.subfield_comparison.subfields,
    s.employment_rate.isSome ∧ s.median_income.isSome)

instance (p : Page2Data) : Decidable (WellFormed p) := by
  unfold WellFormed; infer_instance

/-! ### Concrete snapshots used by the claims -/

/-- The end-to-end scenario series of spec §8: five annual observations
`[{2019,6.0},{2020,9.5},{2021,7.0},{2022,5.5},{2023,5.0}]`. -/
def c1Series : List TrendPoint :=
  [⟨"2019", 6⟩, ⟨"2020", 19 / 2⟩, ⟨"2021", 7⟩, ⟨"2022", 11 / 2⟩, ⟨"2023", 5⟩]

/-- Snapshot carrying only the §8 unemployment series (the blank user
education resolves to the fallback first series). -/
def c1Snapshot : Page2Data :=
  { emptySnapshot with
    unemployment := ⟨"", [("Total, all education levels", c1Series)]⟩ }

/-- The forecast the engine produces for `c1Snapshot` (checked by
kernel evaluation below): note the slope `-0.075` is negative but not
below the `-0.1` "improving" threshold. -/
def c1Expected : ForecastResult :=
  ⟨[6, 19 / 2, 7, 11 / 2, 5],
   [6, 31 / 4, 15 / 2, 22 / 3, 35 / 6],
   [333 / 50, 329 / 50, 651 / 100],
   -3 / 40,
   "Stable — unemployment relatively flat"⟩

/-- C1 counterexample: on the §8 series the engine's interpretation is
the "Stable" string, not "Improving" as the claim states (the slope of
the smoothed series is −0.075, which is not < −0.1). -/
theorem forecast_example_not_improving :
    compute_unemployment_forecast c1Snapshot = .ok c1Expected ∧
    c1Expected.interpretation ≠ "Improving — unemployment trending downward" := by
  constructor
  · decide
  · decide

/-- C1 (amended): every successful unemployment forecast has exactly 3
forecast values, all ≥ 0; on the §8 example series the result is a
Success whose fitted slope is negative and whose interpretation is
"Stable — unemployment relatively flat". -/
theorem forecast_slope_neg_and_stable :
    (∀ (p : Page2Data) (r : ForecastResult),
      compute_unemployment_forecast p = .ok r →
      r.forecast_values.length = 3 ∧ ∀ v ∈ r.forecast_values, 0 ≤ v) ∧
    (compute_unemployment_forecast c1Snapshot = .ok c1Expected ∧
      c1Expected.slope < 0 ∧
      c1Expected.interpretation = "Stable — unemployment relatively flat") := by
  constructor
  · intro p r h
    simp only [compute_unemployment_forecast] at h
    split at h
    · cases h
    · injection h with h
      subst h
      refine ⟨by rw [List.length_map, List.length_range], ?_⟩
      intro v hv
      obtain ⟨i, _, rfl⟩ := List.mem_map.mp hv
      exact le_max_left 0 _
  · exact ⟨by decide, by decide, by decide⟩

/-- C1 witness: the amended theorem applied to the concrete snapshot. -/
theorem forecast_slope_neg_and_stable_witness :
    c1Expected.forecast_values.length = 3 :=
  (forecast_slope_neg_and_stable.1 c1Snapshot c1Expected (by decide)).1

/-- A perfectly linear series with slope 1 starting at `c`. -/
def arithSeq (c : ℚ) (n : ℕ) : List ℚ :=
  (List.range n).map (fun i : ℕ => c + (i : ℚ))

theorem zip_self_map {α β : Type} (f : α → β) (l : List α) :
    l.zip (l.map f) = l.map (fun a => (a, f a)) := by
  induction l with
  | nil => rfl
  | cons a l ih => simp [ih]

theorem sum_range_cast (n : ℕ) :
    ((List.range n).map (fun i : ℕ => (i : ℚ))).sum = n * (n - 1) / 2 := by
  induction n with
  | zero => simp
  | succ m ih =>
    rw [List.range_succ, List.map_append, List.sum_append, ih]
    simp only [List.map_cons, List.map_nil, List.sum_cons, List.sum_nil, add_zero]
    push_cast
    ring

theorem sum_range_cast_sq (n : ℕ) :
    ((List.range n).map (fun i : ℕ => (i : ℚ) * (i : ℚ))).sum =
      n * (n - 1) * (2 * n - 1) / 6 := by
  induction n with
  | zero => simp
  | succ m ih =>
    rw [List.range_succ, List.map_append, List.sum_append, ih]
    simp only [List.map_cons, List.map_nil, List.sum_cons, List.sum_nil, add_zero]
    push_cast
    ring

theorem sum_range_add_cast (c : ℚ) (n : ℕ) :
    ((List.range n).map (fun i : ℕ => c + (i : ℚ))).sum = n * c + n * (n - 1) / 2 := by
  induction n with
  | zero => simp
  | succ m ih =>
    rw [List.range_succ, List.map_append, List.sum_append, ih]
    simp only [List.map_cons, List.map_nil, List.sum_cons, List.sum_nil, add_zero]
    push_cast
    ring

theorem sum_range_mul_add_cast (c : ℚ) (n : ℕ) :
    ((List.range n).map (fun i : ℕ => (i : ℚ) * (c + (i : ℚ)))).sum =
      c * (n * (n - 1) / 2) + n * (n - 1) * (2 * n - 1) / 6 := by
  induction n with
  | zero => simp
  | succ m ih =>
    rw [List.range_succ, List.map_append, List.sum_append, ih]
    simp only [List.map_cons, List.map_nil, List.sum_cons, List.sum_nil, add_zero]
    push_cast
    ring

theorem polyfit1_arith (c : ℚ) (n : ℕ) (hn : 3 ≤ n) :
    polyfit1 (arithSeq c n) = (1, c) := by
  have hN : (3 : ℚ) ≤ (n : ℚ) := by exact_mod_cast hn
  have h0 : (0 : ℚ) < (n : ℚ) := by linarith
  have h1 : (0 : ℚ) < (n : ℚ) - 1 := by linarith
  have h2 : (0 : ℚ) < (n : ℚ) + 1 := by linarith
  have hD : (n : ℚ) * ((n : ℚ) * ((n : ℚ) - 1) * (2 * (n : ℚ) - 1) / 6) -
      ((n : ℚ) * ((n : ℚ) - 1) / 2) * ((n : ℚ) * ((n : ℚ) - 1) / 2) ≠ 0 := by
    have heq : (n : ℚ) * ((n : ℚ) * ((n : ℚ) - 1) * (2 * (n : ℚ) - 1) / 6) -
        ((n : ℚ) * ((n : ℚ) - 1) / 2) * ((n : ℚ) * ((n : ℚ) - 1) / 2) =
        (n : ℚ) * (n : ℚ) * ((n : ℚ) - 1) * ((n : ℚ) + 1) / 12 := by ring
    rw [heq]
    exact ne_of_gt (div_pos (mul_pos (mul_pos (mul_pos h0 h0) h1) h2) (by norm_num))
  simp only [polyfit1, arithSeq, List.length_map, List.length_range,
    List.zip_map', List.map_map]
  rw [show ((fun p : ℚ × ℚ => p.1 * p.2) ∘ fun a : ℕ => ((a : ℚ), c + (a : ℚ))) =
    (fun i : ℕ => (i : ℚ) * (c + (i : ℚ))) from rfl]
  rw [show ((fun x : ℚ => x * x) ∘ fun i : ℕ => (i : ℚ)) =
    (fun i : ℕ => (i : ℚ) * (i : ℚ)) from rfl]
  rw [sum_range_cast, sum_range_cast_sq, sum_range_add_cast, sum_range_mul_add_cast]
  have hslope : ((n : ℚ) * (c * ((n : ℚ) * ((n : ℚ) - 1) / 2) +
        (n : ℚ) * ((n : ℚ) - 1) * (2 * (n : ℚ) - 1) / 6) -
      (n : ℚ) * ((n : ℚ) - 1) / 2 * ((n : ℚ) * c + (n : ℚ) * ((n : ℚ) - 1) / 2)) /
      ((n : ℚ) * ((n : ℚ) * ((n : ℚ) - 1) * (2 * (n : ℚ) - 1) / 6) -
        (n : ℚ) * ((n : ℚ) - 1) / 2 * ((n : ℚ) * ((n : ℚ) - 1) / 2)) = 1 := by
    rw [div_eq_one_iff_eq hD]
    ring
  rw [hslope]
  have hint : ((n : ℚ) * c + (n : ℚ) * ((n : ℚ) - 1) / 2 -
      1 * ((n : ℚ) * ((n : ℚ) - 1) / 2)) / (n : ℚ) = c := by
    rw [div_eq_iff (ne_of_gt h0)]
    ring
  rw [hint]

theorem residualVar_arith (c : ℚ) (n : ℕ) (hn : 3 ≤ n) :
    residualVar (arithSeq c n) = 0 := by
  have hfit : polyfit1 (arithSeq c n) = (1, c) := polyfit1_arith c n hn
  have hfit' : polyfit1 ((List.range n).map (fun i : ℕ => c + (i : ℚ))) = (1, c) := by
    simpa [arithSeq] using hfit
  have hrs : fitResiduals (arithSeq c n) =
      (List.range n).map (fun _ : ℕ => (0 : ℚ)) := by
    simp only [fitResiduals, arithSeq, hfit', List.length_map, List.length_range,
      zip_self_map, List.map_map]
    refine List.map_congr_left ?_
    intro a _
    simp only [Function.comp_apply]
    ring
  simp only [residualVar, hrs, List.map_map]
  have hsum0 : ((List.range n).map (fun _ : ℕ => (0 : ℚ))).sum = 0 := by
    refine List.sum_eq_zero ?_
    intro x hx
    obtain ⟨i, _, rfl⟩ := List.mem_map.mp hx
    rfl
  have hmu : listMean ((List.range n).map (fun _ : ℕ => (0 : ℚ))) = 0 := by
    rw [listMean, hsum0, zero_div]
  rw [hmu]
  have h2 : ((List.range n).map
      ((fun r : ℚ => (r - 0) * (r - 0)) ∘ fun _ : ℕ => (0 : ℚ))).sum = 0 := by
    refine List.sum_eq_zero ?_
    intro x hx
    obtain ⟨i, _, rfl⟩ := List.mem_map.mp hx
    simp
  rw [listMean, h2, zero_div]

/-- C2 counterexample: on the spec's own example `[10,...,15]` the
window-3 trailing moving average (growing window at the start) perturbs
the first two entries, so the least-squares slope of the smoothed series
is 57/70 ≈ 0.814, not 1.0, and the residual variance is 19/420 ≠ 0. -/
theorem smoothing_slope_cex :
    (polyfit1 (movingAverage (arithSeq 10 6) 3)).1 = 57 / 70 ∧
    ((57 : ℚ) / 70) ≠ 1 ∧
    residualVar (movingAverage (arithSeq 10 6) 3) = 19 / 420 ∧
    ((19 : ℚ) / 420) ≠ 0 := by
  refine ⟨by decide, by decide, by decide, by decide⟩

/-- C2 (amended): the least-squares fit recovers slope 1 with zero
residual variance on the raw perfectly linear series (any start value,
any length ≥ 3); after the window-3 growing-window smoothing this fails:
on `[10,...,15]` the slope becomes 57/70 with positive residual
variance. -/
theorem smoothing_shifts_slope :
    (∀ (c : ℚ) (n : ℕ), 3 ≤ n →
      polyfit1 (arithSeq c n) = (1, c) ∧ residualVar (arithSeq c n) = 0) ∧
    ((polyfit1 (movingAverage (arithSeq 10 6) 3)).1 = 57 / 70 ∧
      0 < residualVar (movingAverage (arithSeq 10 6) 3)) := by
  exact ⟨fun c n hn => ⟨polyfit1_arith c n hn, residualVar_arith c n hn⟩,
    by decide, by decide⟩

/-- C2 witness: the amended theorem applied at `c = 10`, `n = 6`. -/
theorem smoothing_shifts_slope_witness :
    polyfit1 (arithSeq 10 6) = (1, 10) ∧ residualVar (arithSeq 10 6) = 0 :=
  smoothing_shifts_slope.1 10 6 (by decide)

/-- C4: `_percentile_score` returns 50 for a missing value, an empty or
a singleton population; otherwise it is
`min(100, count(p < value)/(n-1)*100)` with strict less-than; and on any
nonempty population the result lies in [0, 100]. -/
theorem percentile_score_spec :
    (∀ pop : List ℚ, percentileScore none pop = 50) ∧
    (∀ v : ℚ, percentileScore (some v) [] = 50) ∧
    (∀ v x : ℚ, percentileScore (some v) [x] = 50) ∧
    (∀ (v : ℚ) (pop : List ℚ), 2 ≤ pop.length →
      percentileScore (some v) pop =
        min 100 ((pop.countP (fun x => decide (x < v)) : ℚ) /
          ((pop.length : ℚ) - 1) * 100)) ∧
    (∀ (v : ℚ) (pop : List ℚ), pop ≠ [] →
      0 ≤ percentileScore (some v) pop ∧ percentileScore (some v) pop ≤ 100) := by
  have h_none : ∀ pop : List ℚ, percentileScore none pop = 50 := by
    intro pop
    simp [percentileScore]
  have h_nil : ∀ v : ℚ, percentileScore (some v) [] = 50 := by
    intro v
    simp [percentileScore]
  have h_single : ∀ v x : ℚ, percentileScore (some v) [x] = 50 := by
    intro v x
    simp [percentileScore, pySortBy, pyInsert]
  have h_formula : ∀ (v : ℚ) (pop : List ℚ), 2 ≤ pop.length →
      percentileScore (some v) pop =
        min 100 ((pop.countP (fun x => decide (x < v)) : ℚ) /
          ((pop.length : ℚ) - 1) * 100) := by
    intro v pop h2
    obtain ⟨a, t, rfl⟩ : ∃ a t, pop = a :: t := by
      cases pop with
      | nil => simp at h2
      | cons a t => exact ⟨a, t, rfl⟩
    obtain ⟨b, r, rfl⟩ : ∃ b r, t = b :: r := by
      cases t with
      | nil => simp at h2
      | cons b r => exact ⟨b, r, rfl⟩
    have hlen := (pySortBy_perm (fun x y => decide (x < y)) (a :: b :: r)).length_eq
    have hcount : ((pySortBy (fun x y => decide (x < y)) (a :: b :: r)).filter
        (fun x => decide (x < v))).length =
        (a :: b :: r).countP (fun x => decide (x < v)) := by
      rw [← List.countP_eq_length_filter]
      exact (pySortBy_perm _ _).countP_eq _
    simp only [percentileScore, List.isEmpty_cons, Option.isNone_some,
      Option.getD_some]
    rw [if_neg (by simp), hlen, hcount]
    rw [if_neg (by simp)]
  have h_bounds : ∀ (v : ℚ) (pop : List ℚ), pop ≠ [] →
      0 ≤ percentileScore (some v) pop ∧ percentileScore (some v) pop ≤ 100 := by
    intro v pop hne
    match pop, hne with
    | [x], _ => rw [h_single v x]; norm_num
    | a :: b :: r, _ =>
      rw [h_formula v (a :: b :: r) (by simp)]
      have hpos : (0 : ℚ) < ((a :: b :: r).length : ℚ) - 1 := by
        have : (2 : ℚ) ≤ ((a :: b :: r).length : ℚ) := by
          exact_mod_cast (by simp : 2 ≤ (a :: b :: r).length)
        linarith
      have hx : 0 ≤ ((a :: b :: r).countP (fun x => decide (x < v)) : ℚ) /
          (((a :: b :: r).length : ℚ) - 1) * 100 := by
        have hc : (0 : ℚ) ≤ ((a :: b :: r).countP (fun x => decide (x < v)) : ℚ) := by
          positivity
        have := div_nonneg hc (le_of_lt hpos)
        linarith
      exact ⟨le_min (by norm_num) hx, min_le_left _ _⟩
  exact ⟨h_none, h_nil, h_single, h_formula, h_bounds⟩

/-- C4 witness: the bounds conjunct at a concrete value and population. -/
theorem percentile_score_spec_witness :
    0 ≤ percentileScore (some 5) [1, 2, 3] ∧ percentileScore (some 5) [1, 2, 3] ≤ 100 :=
  percentile_score_spec.2.2.2.2 5 [1, 2, 3] (by decide)

/-- C5: `compute_composite_score` never returns an Error; each missing
or insufficient sub-input yields the neutral 50.0 component; the five
weights sum to exactly 1; and the all-default snapshot scores exactly
50.0 (grade "C"). -/
theorem composite_score_total_spec :
    ((compositeWeights.map (fun kw => kw.2)).sum = 1) ∧
    (∀ p : Page2Data, compute_composite_score p = .ok (compositeResult p)) ∧
    (∀ p : Page2Data, p.labour_force.employment_rate = none →
      compositeEmployment p = 50) ∧
    (∀ p : Page2Data, p.labour_force.comparison.filterMap (·.employment_rate) = [] →
      compositeEmployment p = 50) ∧
    (∀ p : Page2Data, p.income.median_income = none → compositeIncome p = 50) ∧
    (∀ p : Page2Data, p.income.ranking.filterMap (·.median_income) = [] →
      compositeIncome p = 50) ∧
    (∀ p : Page2Data,
      (findUserUnemploymentSeries p.unemployment.trends
        p.unemployment.user_education).length < 3 →
      compositeTrend p = 50) ∧
    (∀ p : Page2Data, p.job_vacancies.length < 4 → compositeDemand p = 50) ∧
    (∀ p : Page2Data, (p.job_vacancies.filterMap (·.vacancies)).length < 4 →
      compositeDemand p = 50) ∧
    (∀ p : Page2Data, p.graduate_outcomes.growth_pct = none →
      compositeGrowth p = 50) ∧
    (compositeResult emptySnapshot = ⟨50, 50, 50, 50, 50, 50, "C"⟩) := by
  refine ⟨by decide, fun p => rfl, ?_, ?_, ?_, ?_, ?_, ?_, ?_, ?_, by decide⟩
  · intro p h
    simp [compositeEmployment, h]
  · intro p h
    cases hrate : p.labour_force.employment_rate <;>
      simp [compositeEmployment, hrate, h]
  · intro p h
    simp [compositeIncome, h]
  · intro p h
    cases hmed : p.income.median_income <;> simp [compositeIncome, hmed, h]
  · intro p h
    unfold compositeTrend
    rw [if_neg (by omega)]
  · intro p h
    unfold compositeDemand
    rw [if_neg (by omega)]
  · intro p h
    simp only [compositeDemand]
    split
    · rw [if_neg (by omega)]
    · rfl
  · intro p h
    simp [compositeGrowth, h]

/-- C5 witness: the missing-input conjuncts applied to the empty
snapshot. -/
theorem composite_score_total_spec_witness :
    compositeEmployment emptySnapshot = 50 ∧ compositeTrend emptySnapshot = 50 ∧
    compositeGrowth emptySnapshot = 50 :=
  ⟨composite_score_total_spec.2.2.1 emptySnapshot rfl,
   composite_score_total_spec.2.2.2.2.2.2.1 emptySnapshot (by decide),
   composite_score_total_spec.2.2.2.2.2.2.2.2.2.1 emptySnapshot rfl⟩

/-- C6: `compute_income_projection` errors iff an anchor is missing or
the 2-year income is ≤ 0; otherwise the fitted logarithmic curve
`a * ln(year) + b` passes exactly through both anchor points. -/
theorem income_projection_spec :
    ∀ p : Page2Data,
      ((p.graduate_outcomes.income_2yr = none ∨
          p.graduate_outcomes.income_5yr = none) →
        compute_income_projection p =
          .err "Insufficient graduate income data for projection") ∧
      (∀ a2 : ℚ, p.graduate_outcomes.income_2yr = some a2 → a2 ≤ 0 →
        p.graduate_outcomes.income_5yr ≠ none →
        compute_income_projection p = .err "Invalid income data (2yr income <= 0)") ∧
      (∀ a2 a5 : ℚ, p.graduate_outcomes.income_2yr = some a2 →
        p.graduate_outcomes.income_5yr = some a5 → 0 < a2 →
        ∃ r : ProjectionResult, compute_income_projection p = .ok r ∧
          r.a = ((a5 : ℝ) - (a2 : ℝ)) / (Real.log 5 - Real.log 2) ∧
          r.a * Real.log 2 + r.b = (a2 : ℝ) ∧
          r.a * Real.log 5 + r.b = (a5 : ℝ)) := by
  intro p
  have hlog : Real.log 5 - Real.log 2 ≠ 0 := by
    have h25 : Real.log 2 < Real.log 5 :=
      Real.log_lt_log (by norm_num) (by norm_num)
    exact sub_ne_zero.mpr h25.ne'
  refine ⟨?_, ?_, ?_⟩
  · intro h
    rcases h with h | h
    · simp only [compute_income_projection, h]
    · cases h2 : p.graduate_outcomes.income_2yr <;>
        simp only [compute_income_projection, h, h2]
  · intro a2 h2 hle h5ne
    obtain ⟨a5, h5⟩ := Option.ne_none_iff_exists'.mp h5ne
    simp only [compute_income_projection, h2, h5]
    rw [if_pos hle]
  · intro a2 a5 h2 h5 hpos
    simp only [compute_income_projection, h2, h5]
    rw [if_neg (not_le.mpr hpos)]
    refine ⟨_, rfl, rfl, by ring, ?_⟩
    show ((a5 : ℝ) - (a2 : ℝ)) / (Real.log 5 - Real.log 2) * Real.log 5 +
      ((a2 : ℝ) - ((a5 : ℝ) - (a2 : ℝ)) / (Real.log 5 - Real.log 2) * Real.log 2) =
      (a5 : ℝ)
    field_simp
    ring

/-- C6 witness: the missing-anchor error case on the empty snapshot. -/
theorem income_projection_spec_witness :
    compute_income_projection emptySnapshot =
      .err "Insufficient graduate income data for projection" :=
  (income_projection_spec emptySnapshot).1 (Or.inl rfl)

/-- Snapshot with a present-but-zero median income: Python's `if
median_inc and avg_inc and avg_inc > 0` is falsy on `0`. -/
def c9Snapshot : Page2Data :=
  { emptySnapshot with income := ⟨some 0, some 50000, [], []⟩ }

/-- C9 counterexample: with `median_income = 0` and `average_income =
50000` both present and the average positive, the claim expects
`symmetry = round(0/50000, 3) = 0.0` with grade "F", but the engine
returns `None` and grade "N/A" (truthiness test on the median). -/
theorem risk_symmetry_zero_median_cex :
    (riskResult c9Snapshot).income_symmetry = none ∧
    (riskResult c9Snapshot).symmetry_grade = "N/A" ∧
    ("N/A" : String) ≠ "F" := by
  refine ⟨?_, ?_, by decide⟩
  · show riskSymmetry c9Snapshot = none
    decide
  · show symmetryGrade (riskSymmetry c9Snapshot) = "N/A"
    decide

/-- C9 (amended): when both incomes are present, the median is nonzero
(Python truthiness) and the average positive, `income_symmetry` is
`round(median/average, 3)` graded by the ≥0.95/0.85/0.75/0.65 table;
when either value is absent the symmetry is `None` with grade "N/A". -/
theorem risk_symmetry_spec :
    ∀ p : Page2Data,
      (∀ m a : ℚ, p.income.median_income = some m →
        p.income.average_income = some a → m ≠ 0 → 0 < a →
        (riskResult p).income_symmetry = some (pyRound 3 (m / a)) ∧
        (riskResult p).symmetry_grade =
          symmetryGrade (some (pyRound 3 (m / a)))) ∧
      ((p.income.median_income = none ∨ p.income.average_income = none) →
        (riskResult p).income_symmetry = none ∧
        (riskResult p).symmetry_grade = "N/A") := by
  intro p
  constructor
  · intro m a hm ha hm0 ha0
    have hsym : riskSymmetry p = some (pyRound 3 (m / a)) := by
      simp only [riskSymmetry, hm, ha]
      rw [if_pos ⟨hm0, ha0.ne', ha0⟩]
    constructor
    · show riskSymmetry p = some (pyRound 3 (m / a))
      exact hsym
    · show symmetryGrade (riskSymmetry p) = symmetryGrade (some (pyRound 3 (m / a)))
      rw [hsym]
  · intro h
    have hsym : riskSymmetry p = none := by
      rcases h with h | h
      · simp only [riskSymmetry, h]
      · cases hm : p.income.median_income <;> simp only [riskSymmetry, hm, h]
    refine ⟨hsym, ?_⟩
    show symmetryGrade (riskSymmetry p) = "N/A"
    rw [hsym]
    rfl

/-- Snapshot for the C9 witness: symmetry 0.96, grade "A". -/
def c9WitnessSnapshot : Page2Data :=
  { emptySnapshot with income := ⟨some 48000, some 50000, [], []⟩ }

/-- C9 witness: the amended theorem at a concrete snapshot. -/
theorem risk_symmetry_spec_witness :
    (riskResult c9WitnessSnapshot).income_symmetry =
      some (pyRound 3 ((48000 : ℚ) / 50000)) ∧
    (riskResult c9WitnessSnapshot).symmetry_grade =
      symmetryGrade (some (pyRound 3 ((48000 : ℚ) / 50000))) :=
  (risk_symmetry_spec c9WitnessSnapshot).1 48000 50000 rfl rfl (by decide) (by decide)

theorem length_filterMap_eq_countP {α β : Type} (f : α → Option β) (l : List α) :
    (l.filterMap f).length = l.countP (fun a => (f a).isSome) := by
  induction l with
  | nil => rfl
  | cons a l ih =>
    cases hf : f a <;>
      simp [List.filterMap_cons, hf, List.countP_cons, ih]

theorem two_le_length_of_mem_ne {α : Type} {a b : α} {l : List α} (hab : a ≠ b)
    (ha : a ∈ l) (hb : b ∈ l) : 2 ≤ l.length := by
  cases l with
  | nil => cases ha
  | cons x t =>
    cases t with
    | nil =>
      simp only [List.mem_singleton] at ha hb
      exact absurd (ha.trans hb.symm) hab
    | cons y r => simp [List.length_cons]

theorem zip_tail_nil_of_le_one {α : Type} {l : List α} (h : l.length ≤ 1) :
    l.zip l.tail = [] := by
  cases l with
  | nil => rfl
  | cons a t =>
    cases t with
    | nil => rfl
    | cons b r => simp at h

/-- Snapshot on which the positive-premium break-even rounds to `0.0`:
premium 400000 against a 16000 total cost gives `round(0.04, 1) = 0.0`,
which the engine's `> 0` filter then excludes from `best_roi`. -/
def c7CexSnapshot : Page2Data :=
  { emptySnapshot with income := ⟨none, none, [],
      [⟨"High school diploma", 100⟩, ⟨"Apprenticeship/trades", 400100⟩]⟩ }

/-- The single evaluated adjacent pair of `c7CexSnapshot`. -/
def c7CexLevel : RoiLevel :=
  ⟨"High school diploma", "Apprenticeship/trades", 100, 400100, 400000, 400000,
    16000, 2, some 0⟩

/-- C7 counterexample: the entry has a non-`None` break-even (0.0), so
the claim requires it to be `best_roi`; the engine's additional
`break_even > 0` filter leaves `best_roi = None`. -/
theorem education_roi_best_roi_cex :
    compute_education_roi c7CexSnapshot = .ok ⟨[c7CexLevel], none⟩ ∧
    c7CexLevel.break_even_years = some 0 ∧
    (none : Option RoiLevel) ≠ some c7CexLevel := by
  refine ⟨by decide, by decide, by decide⟩

/-- Helper for C7: a `None` minimum over the positive-break-even filter
means no level has a positive break-even. -/
theorem roiBest_none_spec (L : List RoiLevel)
    (h : pyMinBy (fun l => (l.break_even_years).getD 0) (L.filter roiPositive) = none) :
    ∀ l ∈ L, ∀ b : ℚ, l.break_even_years = some b → ¬0 < b := by
  intro l hl b hb hbpos
  rw [pyMinBy_eq_none, List.filter_eq_nil_iff] at h
  refine h l hl ?_
  rw [roiPositive, hb]
  exact decide_eq_true hbpos

/-- Helper for C7: a `some` minimum is a member with positive break-even
that minimizes the break-even over all qualifying levels. -/
theorem roiBest_some_spec (L : List RoiLevel) (best : RoiLevel)
    (h : pyMinBy (fun l => (l.break_even_years).getD 0) (L.filter roiPositive) =
      some best) :
    best ∈ L ∧ (∃ bb : ℚ, best.break_even_years = some bb ∧ 0 < bb) ∧
    (∀ l ∈ L, ∀ b : ℚ, l.break_even_years = some b → 0 < b →
      (best.break_even_years).getD 0 ≤ b) := by
  obtain ⟨hmem, hmin⟩ := pyMinBy_spec h
  rw [List.mem_filter] at hmem
  obtain ⟨hlev, hpred⟩ := hmem
  refine ⟨hlev, ?_, ?_⟩
  · rw [roiPositive] at hpred
    cases hbe : best.break_even_years with
    | none => rw [hbe] at hpred; cases hpred
    | some bb =>
      rw [hbe] at hpred
      exact ⟨bb, rfl, of_decide_eq_true hpred⟩
  · intro l hl b hb hbpos
    have hlf : l ∈ L.filter roiPositive := by
      rw [List.mem_filter]
      refine ⟨hl, ?_⟩
      rw [roiPositive, hb]
      exact decide_eq_true hbpos
    have := hmin l hlf
    rw [hb] at this
    simpa using this

/-- C7 (amended): in every successful ROI analysis each evaluated pair
has `break_even = round(total_cost/premium, 1)` iff the raw premium is
positive (`None` otherwise), and `best_roi` is the first entry attaining
the minimum break-even among entries whose break-even is non-`None`
and strictly positive (`None` when no entry qualifies). -/
theorem education_roi_break_even_spec :
    ∀ (p : Page2Data) (r : RoiResult), compute_education_roi p = .ok r →
      (∀ l ∈ r.levels,
        l.break_even_years =
          if 0 < l.to_income - l.from_income
          then some (pyRound 1 (l.total_cost / (l.to_income - l.from_income)))
          else none) ∧
      (r.best_roi = none →
        ∀ l ∈ r.levels, ∀ b : ℚ, l.break_even_years = some b → ¬0 < b) ∧
      (∀ best : RoiLevel, r.best_roi = some best →
        best ∈ r.levels ∧
        (∃ bb : ℚ, best.break_even_years = some bb ∧ 0 < bb) ∧
        (∀ l ∈ r.levels, ∀ b : ℚ, l.break_even_years = some b → 0 < b →
          (best.break_even_years).getD 0 ≤ b)) := by
  intro p r h
  simp only [compute_education_roi] at h
  split at h
  · cases h
  · injection h with h
    subst h
    refine ⟨?_, ?_, ?_⟩
    · intro l hl
      simp only at hl
      obtain ⟨pr, _, rfl⟩ := List.mem_map.mp hl
      rfl
    · intro hnone
      exact roiBest_none_spec _ hnone
    · intro best hbest
      exact roiBest_some_spec _ best hbest

/-- Snapshot for the C7 witness (the §8 ROI example: 88000/15000 = 5.9). -/
def c7WitnessSnapshot : Page2Data :=
  { emptySnapshot with income := ⟨none, none, [],
      [⟨"High school diploma", 50000⟩, ⟨"Bachelor's degree", 65000⟩]⟩ }

/-- The single evaluated adjacent pair of `c7WitnessSnapshot`. -/
def c7WitnessLevel : RoiLevel :=
  ⟨"High school diploma", "Bachelor's degree", 50000, 65000, 15000, 30,
    88000, 4, some (59 / 10)⟩

/-- C7 witness: the amended theorem at the concrete ROI snapshot. -/
theorem education_roi_break_even_spec_witness :
    c7WitnessLevel.break_even_years =
      (if 0 < c7WitnessLevel.to_income - c7WitnessLevel.from_income
       then some (pyRound 1 (c7WitnessLevel.total_cost /
         (c7WitnessLevel.to_income - c7WitnessLevel.from_income)))
       else none) :=
  (education_roi_break_even_spec c7WitnessSnapshot
    ⟨[c7WitnessLevel], some c7WitnessLevel⟩ (by decide)).1 c7WitnessLevel
    (by decide)

/-- C10: with at least two by-education entries but fewer than two of
them carrying a canonical education label, the ROI analysis succeeds
with an empty `levels` list and `best_roi = None` (no error). -/
theorem education_roi_sparse_levels :
    ∀ p : Page2Data, 2 ≤ p.income.by_education.length →
      (p.income.by_education.filter
        (fun e => decide (e.education ∈ eduOrder))).length < 2 →
      compute_education_roi p = .ok ⟨[], none⟩ := by
  intro p hlen hcan
  have havail : (eduOrder.filterMap (fun e =>
      Option.map (fun v => (e, v)) (dictGet (List.map (fun x =>
        (x.education, x.median_income)) p.income.by_education) e))).length ≤ 1 := by
    rw [length_filterMap_eq_countP, List.countP_eq_length_filter]
    set S := eduOrder.filter (fun e =>
      (Option.map (fun v => (e, v)) (dictGet (List.map (fun x =>
        (x.education, x.median_income)) p.income.by_education) e)).isSome) with hS
    by_contra hgt
    push_neg at hgt
    have hnodupS : S.Nodup := List.Nodup.filter _ (by decide)
    obtain ⟨e₁, T, hST⟩ : ∃ e₁ T, S = e₁ :: T := by
      cases hc : S with
      | nil => rw [hc] at hgt; simp at hgt
      | cons a t => exact ⟨a, t, rfl⟩
    obtain ⟨e₂, R, hTR⟩ : ∃ e₂ R, T = e₂ :: R := by
      cases hc : T with
      | nil => rw [hST, hc] at hgt; simp at hgt
      | cons a t => exact ⟨a, t, rfl⟩
    have hne : e₁ ≠ e₂ := by
      rw [hST, hTR] at hnodupS
      intro h
      exact (List.nodup_cons.mp hnodupS).1 (h ▸ List.mem_cons_self e₂ R)
    have hmem : ∀ e ∈ S, ∃ x ∈ p.income.by_education, x.education = e := by
      intro e he
      have := (List.mem_filter.mp (hS ▸ he)).2
      obtain ⟨v, hv⟩ := Option.isSome_iff_exists.mp (by simpa using this)
      obtain ⟨x, hx, hxe⟩ := List.mem_map.mp (dictGet_mem hv)
      exact ⟨x, hx, congrArg Prod.fst hxe⟩
    have hSsub : ∀ e ∈ S, e ∈ eduOrder := by
      intro e he
      exact (List.mem_filter.mp (hS ▸ he)).1
    obtain ⟨x₁, hx₁, hx₁e⟩ := hmem e₁ (by rw [hST]; exact List.mem_cons_self _ _)
    obtain ⟨x₂, hx₂, hx₂e⟩ := hmem e₂
      (by rw [hST, hTR]; exact List.mem_cons_of_mem _ (List.mem_cons_self _ _))
    have hx₁C : x₁ ∈ p.income.by_education.filter
        (fun e => decide (e.education ∈ eduOrder)) := by
      rw [List.mem_filter]
      exact ⟨hx₁, decide_eq_true (hx₁e ▸ hSsub e₁
        (by rw [hST]; exact List.mem_cons_self _ _))⟩
    have hx₂C : x₂ ∈ p.income.by_education.filter
        (fun e => decide (e.education ∈ eduOrder)) := by
      rw [List.mem_filter]
      exact ⟨hx₂, decide_eq_true (hx₂e ▸ hSsub e₂
        (by rw [hST, hTR]; exact List.mem_cons_of_mem _ (List.mem_cons_self _ _)))⟩
    have hxne : x₁ ≠ x₂ := fun h => hne ((hx₁e.symm.trans (h ▸ rfl)).trans hx₂e)
    exact absurd (two_le_length_of_mem_ne hxne hx₁C hx₂C) (by omega)
  simp only [compute_education_roi]
  rw [if_neg (by omega)]
  rw [zip_tail_nil_of_le_one havail]
  simp [pyMinBy]

/-- Snapshot for the C10 witness: two entries, no canonical labels. -/
def c10WitnessSnapshot : Page2Data :=
  { emptySnapshot with income := ⟨none, none, [],
      [⟨"Unknown level A", 1000⟩, ⟨"Unknown level B", 2000⟩]⟩ }

/-- C10 witness: the theorem at the concrete sparse snapshot. -/
theorem education_roi_sparse_levels_witness :
    compute_education_roi c10WitnessSnapshot = .ok ⟨[], none⟩ :=
  education_roi_sparse_levels c10WitnessSnapshot (by decide) (by decide)

theorem rankPairs_keys (l : List String) (base : ℕ) :
    (rankPairs l base).map Prod.fst = l := by
  induction l generalizing base with
  | nil => rfl
  | cons f fs ih => simp [rankPairs, ih]

theorem rankPairs_value_bounds (l : List String) :
    ∀ (base : ℕ) (f : String) (v : ℕ), (f, v) ∈ rankPairs l base →
      base + 1 ≤ v ∧ v ≤ base + l.length := by
  induction l with
  | nil => intro base f v h; cases h
  | cons g gs ih =>
    intro base f v h
    rcases List.mem_cons.mp h with h | h
    · have h1 : f = g ∧ v = base + 1 := by
        simpa [Prod.ext_iff] using h
      simp [h1.2, List.length_cons]
    · have := ih (base + 1) f v h
      simp only [List.length_cons]
      omega

theorem rank_bounds {sorted : List String} {f : String} (hf : f ∈ sorted)
    (total : ℕ) (hlen : sorted.length = total) :
    1 ≤ dictGetD (rankPairs sorted 0) f total ∧
    dictGetD (rankPairs sorted 0) f total ≤ total := by
  have hkeys : f ∈ (rankPairs sorted 0).map Prod.fst := by
    rw [rankPairs_keys]; exact hf
  obtain ⟨v, hv⟩ := Option.isSome_iff_exists.mp (dictGet_isSome_of_mem hkeys)
  have hb := rankPairs_value_bounds sorted 0 f v (dictGet_mem hv)
  rw [dictGetD, hv, Option.getD_some]
  omega

/-- Snapshot whose field universe is {A, B, C} with A carrying only an
employment rate and B, C carrying only incomes: two fields are missing
from the employment dimension. -/
def c8CexSnapshot : Page2Data :=
  { emptySnapshot with
    labour_force := ⟨none, [⟨"A", some 90⟩], ""⟩,
    income := ⟨none, none, [⟨"B", some 50000⟩, ⟨"C", some 40000⟩], []⟩ }

/-- The result the engine produces for `c8CexSnapshot`. -/
def c8CexExpected : CompetitivenessResult :=
  ⟨some 1, some 3, 3, "Top quartile", "Bottom quartile",
   ["High employment rate"], ["Low income relative to other fields"],
   [⟨"B", none, some 50000, 2, 1, 3⟩,
    ⟨"A", some 90, none, 1, 3, 4⟩,
    ⟨"C", none, some 40000, 3, 2, 5⟩]⟩

/-- C8 counterexample: field "B" is missing from the employment list but
receives employment rank 2, not `total_fields = 3` — missing fields sort
with an effective value 0 and therefore receive distinct trailing ranks,
not all the worst rank. -/
theorem field_rankings_missing_rank_cex :
    compute_field_competitiveness c8CexSnapshot = .ok c8CexExpected ∧
    c8CexExpected.field_rankings.find? (fun e => e.field == "B") =
      some ⟨"B", none, some 50000, 2, 1, 3⟩ ∧
    c8CexExpected.total_fields = 3 ∧ (2 : ℕ) ≠ 3 := by
  refine ⟨by decide, by decide, by decide, by decide⟩

/-- C8 (amended): in every successful competitiveness analysis the
`field_rankings` fields are a permutation of the sorted union of the two
input lists (so every union field appears exactly once, including fields
missing from one dimension, which are ranked with sort key 0 rather than
excluded), each entry's `combined_rank` is the sum of its two ranks, and
both ranks lie in `[1, total_fields]`. -/
theorem field_rankings_complete :
    ∀ (p : Page2Data) (r : CompetitivenessResult),
      compute_field_competitiveness p = .ok r →
      ((r.field_rankings.map (fun e => e.field)).Perm (allFieldsOf p)) ∧
      (∀ f : String,
        (f ∈ p.labour_force.comparison.map (fun c => c.field) ∨
         f ∈ p.income.ranking.map (fun rk => rk.field)) →
        (r.field_rankings.filter (fun e => e.field == f)).length = 1) ∧
      (∀ e ∈ r.field_rankings,
        e.combined_rank = e.emp_rank + e.inc_rank ∧
        1 ≤ e.emp_rank ∧ e.emp_rank ≤ r.total_fields ∧
        1 ≤ e.inc_rank ∧ e.inc_rank ≤ r.total_fields) := by
  intro p r h
  simp only [compute_field_competitiveness] at h
  split at h
  · cases h
  · split at h
    · cases h
    · rename_i emp_sorted hemp
      split at h
      · cases h
      · rename_i inc_sorted hinc
        injection h with h
        subst h
        have hempperm := pySortedDescOpt_perm hemp
        have hincperm := pySortedDescOpt_perm hinc
        have hnodup : (allFieldsOf p).Nodup :=
          ((pySortBy_perm _ _).nodup_iff).mpr (List.nodup_dedup _)
        constructor
        · refine ((pySortBy_perm _ _).map _).trans ?_
          rw [List.map_map]
          have : ((fun e : FieldRanking => e.field) ∘ fun f =>
              FieldRanking.mk f ((dictGet (List.map (fun c =>
                (c.field, c.employment_rate)) p.labour_force.comparison) f).getD none)
                ((dictGet (List.map (fun rk => (rk.field, rk.median_income))
                  p.income.ranking) f).getD none)
                (dictGetD (rankPairs emp_sorted 0) f (allFieldsOf p).length)
                (dictGetD (rankPairs inc_sorted 0) f (allFieldsOf p).length)
                (dictGetD (rankPairs emp_sorted 0) f (allFieldsOf p).length +
                  dictGetD (rankPairs inc_sorted 0) f (allFieldsOf p).length)) =
              id := rfl
          rw [this, List.map_id]
        constructor
        · intro f hf
          have hfmem : f ∈ allFieldsOf p := by
            rw [allFieldsOf, mem_pySortBy, List.mem_dedup, List.mem_append]
            simpa using hf
          rw [← List.countP_eq_length_filter]
          rw [(pySortBy_perm _ _).countP_eq]
          rw [List.countP_map]
          have : ((fun e : FieldRanking => e.field == f) ∘ fun g =>
              FieldRanking.mk g ((dictGet (List.map (fun c =>
                (c.field, c.employment_rate)) p.labour_force.comparison) g).getD none)
                ((dictGet (List.map (fun rk => (rk.field, rk.median_income))
                  p.income.ranking) g).getD none)
                (dictGetD (rankPairs emp_sorted 0) g (allFieldsOf p).length)
                (dictGetD (rankPairs inc_sorted 0) g (allFieldsOf p).length)
                (dictGetD (rankPairs emp_sorted 0) g (allFieldsOf p).length +
                  dictGetD (rankPairs inc_sorted 0) g (allFieldsOf p).length)) =
              (fun g => g == f) := rfl
          rw [this]
          exact List.count_eq_one_of_mem hnodup hfmem
        · intro e he
          have he' : e ∈ (allFieldsOf p).map (fun f =>
              FieldRanking.mk f ((dictGet (List.map (fun c =>
                (c.field, c.employment_rate)) p.labour_force.comparison) f).getD none)
                ((dictGet (List.map (fun rk => (rk.field, rk.median_income))
                  p.income.ranking) f).getD none)
                (dictGetD (rankPairs emp_sorted 0) f (allFieldsOf p).length)
                (dictGetD (rankPairs inc_sorted 0) f (allFieldsOf p).length)
                (dictGetD (rankPairs emp_sorted 0) f (allFieldsOf p).length +
                  dictGetD (rankPairs inc_sorted 0) f (allFieldsOf p).length)) :=
            (pySortBy_perm _ _).mem_iff.mp he
          obtain ⟨f, hfmem, rfl⟩ := List.mem_map.mp he'
          refine ⟨rfl, ?_⟩
          have hfe : f ∈ emp_sorted := hempperm.mem_iff.mpr hfmem
          have hfi : f ∈ inc_sorted := hincperm.mem_iff.mpr hfmem
          have hbounds_e := rank_bounds hfe (allFieldsOf p).length hempperm.length_eq
          have hbounds_i := rank_bounds hfi (allFieldsOf p).length hincperm.length_eq
          exact ⟨hbounds_e.1, hbounds_e.2, hbounds_i.1, hbounds_i.2⟩

/-- C8 witness: the amended theorem at the three-field snapshot. -/
theorem field_rankings_complete_witness :
    (c8CexExpected.field_rankings.map (fun e => e.field)).Perm
      (allFieldsOf c8CexSnapshot) :=
  (field_rankings_complete c8CexSnapshot c8CexExpected (by decide)).1

theorem compEntry_value_isSome {p : Page2Data} (wf : WellFormed p) {f : String}
    {v : Option ℚ}
    (hd : dictGet (p.labour_force.comparison.map
      (fun c => (c.field, c.employment_rate))) f = some v) :
    v.isSome := by
  obtain ⟨c, hc, hce⟩ := List.mem_map.mp (dictGet_mem hd)
  have hv : c.employment_rate = v := congrArg Prod.snd hce
  exact hv ▸ wf.1 c hc

theorem rankEntry_value_isSome {p : Page2Data} (wf : WellFormed p) {f : String}
    {v : Option ℚ}
    (hd : dictGet (p.income.ranking.map
      (fun rk => (rk.field, rk.median_income))) f = some v) :
    v.isSome := by
  obtain ⟨rk, hrk, hre⟩ := List.mem_map.mp (dictGet_mem hd)
  have hv : rk.median_income = v := congrArg Prod.snd hre
  exact hv ▸ wf.2.1 rk hrk

/-- Snapshot with a present-but-`None` employment rate next to a numeric
one: `sorted(..., key=...)` compares `None` with a number. -/
def c3CexSnapshot : Page2Data :=
  { emptySnapshot with
    labour_force := ⟨none, [⟨"A", none⟩, ⟨"B", some 80⟩], ""⟩ }

/-- C3 counterexample: on an entry-level `None` employment rate the
competitiveness analysis raises a `TypeError` out of `sorted` instead of
returning a Success or Error value. -/
theorem competitiveness_none_exc_cex :
    (compute_field_competitiveness c3CexSnapshot).isExc = true := by
  decide

/-- C3 (amended): on every Survey Snapshot whose list entries carry
actual numbers for their metric fields (as `processors.py` guarantees),
each of the nine analyses returns a Success or an Error value and no
Python exception escapes; dropping that premise, an entry-level `None`
can make the ranking/quadrant analyses raise (see the counterexample). -/
theorem analyses_no_exception_of_wellformed :
    ∀ p : Page2Data, WellFormed p →
      (compute_composite_score p).isExc = false ∧
      (compute_unemployment_forecast p).isExc = false ∧
      (compute_vacancy_forecast p).isExc = false ∧
      (compute_income_projection p).isExc = false ∧
      (compute_risk_assessment p).isExc = false ∧
      (compute_education_roi p).isExc = false ∧
      (compute_field_competitiveness p).isExc = false ∧
      (compute_career_quadrant p).isExc = false ∧
      (compute_subfield_quadrant p).isExc = false := by
  intro p wf
  refine ⟨rfl, ?_, ?_, ?_, rfl, ?_, ?_, ?_, ?_⟩
  · simp only [compute_unemployment_forecast]
    split <;> rfl
  · simp only [compute_vacancy_forecast]
    split
    · rfl
    · split <;> rfl
  · cases h2 : p.graduate_outcomes.income_2yr with
    | none => simp [compute_income_projection, h2, Outcome.isExc]
    | some a2 =>
      cases h5 : p.graduate_outcomes.income_5yr with
      | none => simp [compute_income_projection, h2, h5, Outcome.isExc]
      | some a5 =>
        simp only [compute_income_projection, h2, h5]
        split <;> rfl
  · simp only [compute_education_roi]
    split <;> rfl
  · simp only [compute_field_competitiveness]
    split
    · rfl
    · have hkey1 : ∀ f ∈ allFieldsOf p,
          ((dictGet (p.labour_force.comparison.map
            (fun c => (c.field, c.employment_rate))) f).getD (some 0)).isSome := by
        intro f _
        cases hd : dictGet (p.labour_force.comparison.map
            (fun c => (c.field, c.employment_rate))) f with
        | none => rfl
        | some v => simpa using compEntry_value_isSome wf hd
      have hkey2 : ∀ f ∈ allFieldsOf p,
          ((dictGet (p.income.ranking.map
            (fun rk => (rk.field, rk.median_income))) f).getD (some 0)).isSome := by
        intro f _
        cases hd : dictGet (p.income.ranking.map
            (fun rk => (rk.field, rk.median_income))) f with
        | none => rfl
        | some v => simpa using rankEntry_value_isSome wf hd
      obtain ⟨es, hes, -⟩ := pySortedDescOpt_ok _ _ hkey1
      obtain ⟨is', his, -⟩ := pySortedDescOpt_ok _ _ hkey2
      rw [hes, his]
      rfl
  · simp only [compute_career_quadrant]
    split
    · rfl
    · split
      · rfl
      · split
        · exfalso
          rename_i hcond
          rcases hcond with hcond | hcond
          · rw [List.any_eq_true] at hcond
            obtain ⟨x, hx, hxn⟩ := hcond
            obtain ⟨qf, hqf, rfl⟩ := List.mem_map.mp hx
            obtain ⟨f, hf, rfl⟩ := List.mem_map.mp hqf
            rw [mem_pySortBy, List.mem_dedup, List.mem_filter] at hf
            have hf1 : f ∈ (p.labour_force.comparison.map
                (fun c => (c.field, c.employment_rate))).map Prod.fst := by
              simpa [List.map_map, Function.comp] using hf.1
            obtain ⟨v, hd⟩ :=
              Option.isSome_iff_exists.mp (dictGet_isSome_of_mem hf1)
            have hsome := compEntry_value_isSome wf hd
            simp only [hd, Option.getD_some] at hxn
            rw [Option.isNone_iff_eq_none] at hxn
            rw [hxn] at hsome
            cases hsome
          · rw [List.any_eq_true] at hcond
            obtain ⟨x, hx, hxn⟩ := hcond
            obtain ⟨qf, hqf, rfl⟩ := List.mem_map.mp hx
            obtain ⟨f, hf, rfl⟩ := List.mem_map.mp hqf
            rw [mem_pySortBy, List.mem_dedup, List.mem_filter] at hf
            obtain ⟨w, hd⟩ := Option.isSome_iff_exists.mp hf.2
            have hsome := rankEntry_value_isSome wf hd
            simp only [hd, Option.getD_some] at hxn
            rw [Option.isNone_iff_eq_none] at hxn
            rw [hxn] at hsome
            cases hsome
        · rfl
  · simp only [compute_subfield_quadrant]
    split
    · rfl
    · split
      · exfalso
        rename_i hcond
        rcases hcond with hcond | hcond
        · rw [List.any_eq_true] at hcond
          obtain ⟨x, hx, hxn⟩ := hcond
          obtain ⟨qf, hqf, rfl⟩ := List.mem_map.mp hx
          obtain ⟨sf, hsf, rfl⟩ := List.mem_map.mp hqf
          have hsome := (wf.2.2 sf hsf).1
          rw [Option.isNone_iff_eq_none] at hxn
          simp only at hxn
          rw [hxn] at hsome
          cases hsome
        · rw [List.any_eq_true] at hcond
          obtain ⟨x, hx, hxn⟩ := hcond
          obtain ⟨qf, hqf, rfl⟩ := List.mem_map.mp hx
          obtain ⟨sf, hsf, rfl⟩ := List.mem_map.mp hqf
          have hsome := (wf.2.2 sf hsf).2
          rw [Option.isNone_iff_eq_none] at hxn
          simp only at hxn
          rw [hxn] at hsome
          cases hsome
      · rfl

/-- C3 witness: the amended theorem at the (trivially well-formed) empty
snapshot. -/
theorem analyses_no_exception_of_wellformed_witness :
    (compute_composite_score emptySnapshot).isExc = false ∧
    (compute_unemployment_forecast emptySnapshot).isExc = false ∧
    (compute_vacancy_forecast emptySnapshot).isExc = false ∧
    (compute_income_projection emptySnapshot).isExc = false ∧
    (compute_risk_assessment emptySnapshot).isExc = false ∧
    (compute_education_roi emptySnapshot).isExc = false ∧
    (compute_field_competitiveness emptySnapshot).isExc = false ∧
    (compute_career_quadrant emptySnapshot).isExc = false ∧
    (compute_subfield_quadrant emptySnapshot).isExc = false :=
  analyses_no_exception_of_wellformed emptySnapshot (by decide)
